import Mathlib

/-!
Verification of the Smart Pet Adoption System (`smart_petadoption.py`).

The Python program is shallowly embedded: each API handler becomes a pure
Lean function over explicit record-store state; SQLite tables become lists
of rows; Python exceptions become an `Except` monad at the places where the
source can raise; the HTTP layer (`do_GET` / `do_POST`) becomes functions
from a path and a parsed body to a response value.
-/

namespace PetAdoption

/-- Row of the `animals` table, restricted to the columns the verified
operations read: `id` (lookup key) plus `name`, and the three columns the
compatibility scorer selects (`species, activity_level, age_months`).
`age_months` is an SQLite INTEGER, embedded as `Int`. -/
structure AnimalRow where
  id : Nat
  name : String
  species : String
  activity_level : String
  age_months : Int
deriving DecidableEq, Repr

/-- Row of the `users` table. -/
structure UserRow where
  id : Nat
  username : String
  email : String
  password_hash : String
  user_type : String
deriving DecidableEq, Repr

/-- Row of the `adoption_applications` table. `applied_at` is an SQLite
TIMESTAMP string; SQLite orders TEXT by byte comparison, embedded as the
lexicographic order on `String`. -/
structure ApplicationRow where
  id : Nat
  adopter_id : Nat
  animal_id : Nat
  adopter_name : String
  pet_name : String
  status : String
  applied_at : String
deriving DecidableEq, Repr

/-- The JSON body of a POST request, after `json.loads`: the fields the six
handlers read via `data.get(...)` or `data[...]`. A missing key is `none`
(Python `data.get` returns `None`). `pet_id`, `adopter_id` and `animal_id`
are sent by the embedded frontend as JSON numbers. -/
structure RequestData where
  username : Option String := none
  email : Option String := none
  password : Option String := none
  user_type : Option String := none
  pet_id : Option Nat := none
  has_yard : Option String := none
  has_children : Option String := none
  has_other_pets : Option String := none
  experience_level : Option String := none
  name : Option String := none
  species : Option String := none
  breed : Option String := none
  color : Option String := none
  age_months : Option String := none
  gender : Option String := none
  vaccinated : Option String := none
  activity_level : Option String := none
  weight_kg : Option String := none
  description : Option String := none
  profile_photo_url : Option String := none
  adopter_id : Option Nat := none
  animal_id : Option Nat := none
  adopter_name : Option String := none
  pet_name : Option String := none
deriving DecidableEq, Repr

/-- The record store: the three SQLite tables. -/
structure DB where
  users : List UserRow
  animals : List AnimalRow
  applications : List ApplicationRow
deriving DecidableEq, Repr

/-- Python exceptions that can escape a handler in the embedded fragment. -/
inductive PyError where
  | attributeError (msg : String)
  | jsonDecodeError
deriving DecidableEq, Repr

/-- A projected adoption-application record as returned by
`handle_get_requests`. -/
structure RequestView where
  id : Nat
  adopter_name : String
  pet_name : String
  applied_at : String
  status : String
deriving DecidableEq, Repr

/-- The JSON response payloads produced by the handlers, up to JSON
serialization: `ok` is `{'success': True}`, `failure m` is
`{'success': False, 'message': m}`, and the remaining constructors are the
success payloads that carry data. -/
inductive ApiResponse where
  | ok
  | okUser (id : Nat) (username : String) (email : String) (user_type : String)
  | okPets (pets : List AnimalRow)
  | okRequests (requests : List RequestView)
  | okMatch (compatibility_percentage : Int) (message : String) (reasons : List String)
  | failure (message : String)
deriving DecidableEq, Repr

/-- The body of an HTTP response: the served HTML document, a
JSON-serialized `ApiResponse`, or nothing (`do_GET` 404 branch). -/
inductive HttpBody where
  | htmlDoc
  | jsonOf (r : ApiResponse)
  | empty
deriving DecidableEq, Repr

/-- An HTTP response: status code plus body. -/
structure HttpResponse where
  status : Nat
  body : HttpBody
deriving DecidableEq, Repr

/-- Abstract model of `hashlib.sha256(s.encode()).hexdigest()` (an external
library function): no verified claim depends on the digest values, only on
the digest of a present string being computed and compared. -/
def sha256Hex (s : String) : String :=
  "sha256:" ++ s

/-- The boundary coercion at the compatibility endpoint:
`data.get(k) == 'yes'`. Python compares the retrieved value (or `None`)
with the literal string `"yes"`. -/
def parseYesNo (v : Option String) : Bool :=
  v == some "yes"

/-- `score = max(0, min(100, score))` from `handle_compatibility_check`. -/
def clampScore (s : Int) : Int :=
  max 0 (min 100 s)

/-- The message selection chain of `handle_compatibility_check`
(source lines 261-268). -/
def matchMessage (s : Int) : String :=
  if s ≥ 80 then "Excellent match! This pet would be perfect for you."
  else if s ≥ 60 then "Good match! This pet would fit well in your home."
  else if s ≥ 40 then "Fair match. Consider the factors below carefully."
  else "This pet may not be the best fit, but adoption is always possible with proper preparation."

/-- The sequential score/reason accumulation of `handle_compatibility_check`
(source lines 236-259), before clamping: starts at `(100, [])` and applies
the four if/elif blocks in source order. `experience_level` is the raw
`data.get(...)` value and may be absent. -/
def scoreAndReasons (species activity_level : String) (age_months : Int)
    (has_yard has_children has_other_pets : Bool)
    (experience_level : Option String) : Int × List String :=
  let s0 : Int × List String := (100, [])
  let s1 :=
    if activity_level = "High" ∧ has_yard = false then
      (s0.1 - 20, s0.2 ++ ["High-energy pets benefit from having a yard"])
    else if activity_level = "High" ∧ has_yard = true then
      (s0.1, s0.2 ++ ["Great match! This pet will love your yard"])
    else s0
  let s2 :=
    if experience_level = some "Beginner" ∧ activity_level = "High" then
      (s1.1 - 15, s1.2 ++ ["High-energy pets may be challenging for beginners"])
    else if experience_level = some "Experienced" then
      (s1.1 + 10, s1.2 ++ ["Your experience is perfect for any pet"])
    else s1
  let s3 :=
    if has_children = true ∧ age_months < 12 then
      (s2.1 - 10, s2.2 ++ ["Young pets may need extra supervision around children"])
    else if has_children = true then
      (s2.1, s2.2 ++ ["This pet\x27s age is good for families with children"])
    else s2
  let s4 :=
    if has_other_pets = true then
      if species = "Dog" then
        (s3.1, s3.2 ++ ["Dogs usually adapt well to other pets"])
      else
        (s3.1 - 5, s3.2 ++ ["Cats may need gradual introduction to other pets"])
    else s3
  s4

/-- The full scorer: accumulate, clamp, pick the message
(source lines 236-269). Returns (percentage, message, reasons). -/
def score_pet (species activity_level : String) (age_months : Int)
    (has_yard has_children has_other_pets : Bool)
    (experience_level : Option String) : Int × String × List String :=
  let sr := scoreAndReasons species activity_level age_months
    has_yard has_children has_other_pets experience_level
  let score := clampScore sr.1
  (score, matchMessage score, sr.2)

/-- `SELECT ... FROM animals WHERE id = ?`: first row whose `id` equals the
bound parameter; a `None` parameter (missing `pet_id`) matches no row. -/
def getAnimalById (animals : List AnimalRow) (pet_id : Option Nat) : Option AnimalRow :=
  animals.find? (fun a => some a.id == pet_id)

/-- `handle_compatibility_check` (source lines 222-269). -/
def handle_compatibility_check (animals : List AnimalRow) (data : RequestData) : ApiResponse :=
  let has_yard := parseYesNo data.has_yard
  let has_children := parseYesNo data.has_children
  let has_other_pets := parseYesNo data.has_other_pets
  match getAnimalById animals data.pet_id with
  | none => .failure "Pet not found"
  | some pet =>
    let r := score_pet pet.species pet.activity_level pet.age_months
      has_yard has_children has_other_pets data.experience_level
    .okMatch r.1 r.2.1 r.2.2

/-- `handle_login` (source lines 143-156). `password.encode()` raises
`AttributeError` when the body has no `password` key (the handler has no
try/except); a missing `username` or `user_type` binds SQL NULL, which
matches no row. -/
def handle_login (users : List UserRow) (data : RequestData) : Except PyError ApiResponse := do
  let password_hash ←
    match data.password with
    | none => throw (.attributeError "NoneType object has no attribute encode")
    | some p => pure (sha256Hex p)
  match users.find? (fun u =>
      some u.username == data.username && u.password_hash == password_hash
        && some u.user_type == data.user_type) with
  | some u => pure (.okUser u.id u.username u.email u.user_type)
  | none => pure (.failure "Invalid credentials")

/-- SQLite AUTOINCREMENT: one more than the largest id ever used; on these
insert-only tables, one more than the largest present id. -/
def nextId (ids : List Nat) : Nat :=
  ids.foldr max 0 + 1

/-- The `INSERT INTO users ...` of `handle_register`: SQLite raises
`IntegrityError` (modelled as `none`) when the UNIQUE constraint on
`username` or `email` is violated, or when a missing field binds NULL into
a NOT NULL column. -/
def insertUser (users : List UserRow) (username email : Option String)
    (password_hash user_type : String) : Option (List UserRow) :=
  match username, email with
  | some un, some em =>
    if users.any (fun u => u.username == un || u.email == em) then none
    else some (users ++ [{ id := nextId (users.map (·.id)), username := un, email := em,
                           password_hash := password_hash, user_type := user_type }])
  | _, _ => none

/-- `handle_register` (source lines 158-172): hashes the password (raising
before the try block when it is absent), inserts with `user_type='adopter'`,
and converts `IntegrityError` to a failure response. Returns the response
together with the resulting users table. -/
def handle_register (users : List UserRow) (data : RequestData) :
    Except PyError (ApiResponse × List UserRow) := do
  let password_hash ←
    match data.password with
    | none => throw (.attributeError "NoneType object has no attribute encode")
    | some p => pure (sha256Hex p)
  match insertUser users data.username data.email password_hash "adopter" with
  | some users2 => pure (.ok, users2)
  | none => pure (.failure "Username or email already exists", users)

/-- `handle_get_pets` (source lines 174-184): lists the animals table in
insertion order. -/
def handle_get_pets (animals : List AnimalRow) : ApiResponse :=
  .okPets animals

/-- `handle_add_pet` (source lines 186-199): the whole body runs inside
`try/except Exception`, so every failure — a missing key (`KeyError`), a
non-numeric `age_months` or `vaccinated` (`ValueError` from `int(...)`,
modelled as a decimal-integer parse), or an SQLite CHECK-constraint
violation — becomes `{'success': False, 'message': str(e)}`; the handler
never raises. The stored row is projected to the verified columns. -/
def handle_add_pet (animals : List AnimalRow) (data : RequestData) :
    ApiResponse × List AnimalRow :=
  match data.name, data.species, data.breed, data.color, data.age_months, data.gender,
      data.vaccinated, data.activity_level, data.weight_kg, data.description,
      data.profile_photo_url with
  | some nm, some sp, some _, some _, some ageS, some gender,
      some vaccS, some act, some _, some _, some _ =>
    match ageS.toInt?, vaccS.toInt? with
    | some age, some vacc =>
      if (gender = "Male" ∨ gender = "Female") ∧ (vacc = 0 ∨ vacc = 1)
          ∧ (act = "Low" ∨ act = "Medium" ∨ act = "High") then
        (.ok, animals ++ [{ id := nextId (animals.map (·.id)), name := nm, species := sp,
                            activity_level := act, age_months := age }])
      else (.failure "CHECK constraint failed", animals)
    | _, _ => (.failure "invalid literal for int", animals)
  | _, _, _, _, _, _, _, _, _, _, _ => (.failure "KeyError", animals)

/-- Insert `x` into a list already sorted descending by the key `f`,
keeping it sorted: the embedding of the ordering clause of
`SELECT ... ORDER BY applied_at DESC`. -/
def insertDescBy (f : ApplicationRow → String) (x : ApplicationRow) :
    List ApplicationRow → List ApplicationRow
  | [] => [x]
  | y :: ys => if f x ≤ f y then y :: insertDescBy f x ys else x :: y :: ys

/-- Sort descending by key `f` (insertion sort): the embedding of
`ORDER BY applied_at DESC` over the applications table. -/
def sortDescBy (f : ApplicationRow → String) : List ApplicationRow → List ApplicationRow
  | [] => []
  | x :: xs => insertDescBy f x (sortDescBy f xs)

/-- `handle_get_requests` (source lines 200-208):
`SELECT id, adopter_name, pet_name, applied_at, status FROM
adoption_applications ORDER BY applied_at DESC`. -/
def handle_get_requests (apps : List ApplicationRow) : ApiResponse :=
  .okRequests ((sortDescBy (·.applied_at) apps).map fun r =>
    { id := r.id, adopter_name := r.adopter_name, pet_name := r.pet_name,
      applied_at := r.applied_at, status := r.status })

/-- `handle_adopt_pet` (source lines 210-220): inside `try/except
Exception`; a missing key raises `KeyError` (caught), a NULL in a NOT NULL
column raises `IntegrityError` (caught); otherwise the row is inserted with
`status` defaulted to `'pending'` and `applied_at` to the current
timestamp (passed in as `now`). No foreign-key check is made. -/
def handle_adopt_pet (apps : List ApplicationRow) (data : RequestData) (now : String) :
    ApiResponse × List ApplicationRow :=
  match data.adopter_id, data.animal_id, data.adopter_name, data.pet_name with
  | some aid, some anid, some aname, some pname =>
    (.ok, apps ++ [{ id := nextId (apps.map (·.id)), adopter_id := aid, animal_id := anid,
                     adopter_name := aname, pet_name := pname, status := "pending",
                     applied_at := now }])
  | _, _, _, _ => (.failure "KeyError or NOT NULL constraint failed", apps)

/-- `PetAdoptionHandler.do_GET` (source lines 1029-1043): `/` and
`/index.html` serve the HTML document with status 200, `/api/pets` serves
the pets listing as JSON with status 200, and every other path gets a bare
404 with no body. -/
def do_GET (db : DB) (path : String) : HttpResponse :=
  if path = "/" ∨ path = "/index.html" then { status := 200, body := .htmlDoc }
  else if path = "/api/pets" then { status := 200, body := .jsonOf (handle_get_pets db.animals) }
  else { status := 404, body := .empty }

/-- `PetAdoptionHandler.do_POST` (source lines 1045-1070). The body is
parsed by `json.loads` before dispatch and outside any try/except, so a
parse failure propagates (`body` arrives as `Except.error`); likewise any
exception a handler raises propagates to the caller. Known paths and the
unknown-endpoint fallback all respond with status 200 and a JSON body.
`now` stands for the current timestamp used by the adopt insert. -/
def do_POST (db : DB) (now : String) (path : String)
    (body : Except PyError RequestData) : Except PyError (HttpResponse × DB) := do
  let data ← body
  if path = "/api/login" then
    let r ← handle_login db.users data
    pure ({ status := 200, body := .jsonOf r }, db)
  else if path = "/api/register" then
    let r ← handle_register db.users data
    pure ({ status := 200, body := .jsonOf r.1 }, { db with users := r.2 })
  else if path = "/api/pets" then
    let r := handle_add_pet db.animals data
    pure ({ status := 200, body := .jsonOf r.1 }, { db with animals := r.2 })
  else if path = "/api/requests" then
    pure ({ status := 200, body := .jsonOf (handle_get_requests db.applications) }, db)
  else if path = "/api/adopt" then
    let r := handle_adopt_pet db.applications data now
    pure ({ status := 200, body := .jsonOf r.1 }, { db with applications := r.2 })
  else if path = "/api/ai/match" then
    pure ({ status := 200, body := .jsonOf (handle_compatibility_check db.animals data) }, db)
  else
    pure ({ status := 200, body := .jsonOf (.failure "Unknown endpoint") }, db)

/-- Written from the spec (section 4.3, steps 1-5): the raw score as 100
plus one independent adjustment per step — yard (-20), experience
(-15 / +10), children (-10), other pets (-5 unless the species is Dog). -/
def spec_score_raw (species activityLevel : String) (ageMonths : Int)
    (hasYard hasChildren hasOtherPets : Bool) (experienceLevel : Option String) : Int :=
  100
  + (if activityLevel = "High" ∧ hasYard = false then -20 else 0)
  + (if experienceLevel = some "Beginner" ∧ activityLevel = "High" then -15
     else if experienceLevel = some "Experienced" then 10 else 0)
  + (if hasChildren = true ∧ ageMonths < 12 then -10 else 0)
  + (if hasOtherPets = true ∧ ¬ species = "Dog" then -5 else 0)

/-- Written from the spec (section 4.3, steps 2-5): the reason list as the
concatenation, in step order, of the reasons each step emits. -/
def spec_reasons (species activityLevel : String) (ageMonths : Int)
    (hasYard hasChildren hasOtherPets : Bool) (experienceLevel : Option String) : List String :=
  (if activityLevel = "High" ∧ hasYard = false then
    ["High-energy pets benefit from having a yard"]
   else if activityLevel = "High" ∧ hasYard = true then
    ["Great match! This pet will love your yard"]
   else [])
  ++ (if experienceLevel = some "Beginner" ∧ activityLevel = "High" then
    ["High-energy pets may be challenging for beginners"]
   else if experienceLevel = some "Experienced" then
    ["Your experience is perfect for any pet"]
   else [])
  ++ (if hasChildren = true ∧ ageMonths < 12 then
    ["Young pets may need extra supervision around children"]
   else if hasChildren = true then
    ["This pet\x27s age is good for families with children"]
   else [])
  ++ (if hasOtherPets = true then
    (if species = "Dog" then ["Dogs usually adapt well to other pets"]
     else ["Cats may need gradual introduction to other pets"])
   else [])

/-- Written from the spec (section 4.3, step 7): message selection by
clamped score. -/
def spec_message (s : Int) : String :=
  if 80 ≤ s then "Excellent match! This pet would be perfect for you."
  else if 60 ≤ s then "Good match! This pet would fit well in your home."
  else if 40 ≤ s then "Fair match. Consider the factors below carefully."
  else "This pet may not be the best fit, but adoption is always possible with proper preparation."

/-- Written from the spec (section 4.3): clamp the raw score to [0, 100],
select the message, return (percentage, message, reasons). -/
def spec_score (species activityLevel : String) (ageMonths : Int)
    (hasYard hasChildren hasOtherPets : Bool)
    (experienceLevel : Option String) : Int × String × List String :=
  let raw := spec_score_raw species activityLevel ageMonths
    hasYard hasChildren hasOtherPets experienceLevel
  let clamped := max 0 (min 100 raw)
  (clamped, spec_message clamped,
    spec_reasons species activityLevel ageMonths hasYard hasChildren hasOtherPets experienceLevel)

/-- The two seeded users of `init_database` (source lines 73-85). -/
def seedUsers : List UserRow :=
  [ { id := 1, username := "admin", email := "admin@shelter.com",
      password_hash := sha256Hex "admin123", user_type := "admin" },
    { id := 2, username := "user", email := "user@example.com",
      password_hash := sha256Hex "user123", user_type := "adopter" } ]

/-- The twelve seeded animals of `init_database` (source lines 88-136),
projected to the verified columns. -/
def seedAnimals : List AnimalRow :=
  [ { id := 1, name := "Max", species := "Dog", activity_level := "High", age_months := 24 },
    { id := 2, name := "Charlie", species := "Dog", activity_level := "High", age_months := 36 },
    { id := 3, name := "Rocky", species := "Dog", activity_level := "High", age_months := 48 },
    { id := 4, name := "Daisy", species := "Dog", activity_level := "Medium", age_months := 15 },
    { id := 5, name := "Buddy", species := "Dog", activity_level := "Medium", age_months := 20 },
    { id := 6, name := "Duke", species := "Dog", activity_level := "Low", age_months := 28 },
    { id := 7, name := "Cooper", species := "Dog", activity_level := "High", age_months := 30 },
    { id := 8, name := "Luna", species := "Cat", activity_level := "Medium", age_months := 18 },
    { id := 9, name := "Bella", species := "Cat", activity_level := "Low", age_months := 12 },
    { id := 10, name := "Whiskers", species := "Cat", activity_level := "Medium", age_months := 30 },
    { id := 11, name := "Shadow", species := "Cat", activity_level := "Low", age_months := 24 },
    { id := 12, name := "Cleo", species := "Cat", activity_level := "High", age_months := 14 } ]

/-- The record store right after `init_database` on a fresh file. -/
def seedDB : DB :=
  { users := seedUsers, animals := seedAnimals, applications := [] }

set_option maxHeartbeats 1000000 in
/-- The sequential score/reason accumulation of the code equals the
additive per-step formulation written from the spec. -/
theorem scoreAndReasons_eq_spec (sp act : String) (age : Int) (hy hc hp : Bool)
    (ex : Option String) :
    scoreAndReasons sp act age hy hc hp ex =
      (spec_score_raw sp act age hy hc hp ex, spec_reasons sp act age hy hc hp ex) := by
  simp only [scoreAndReasons, spec_score_raw, spec_reasons]
  by_cases hA : act = "High" <;> by_cases hB : ex = some "Beginner" <;>
    by_cases hE : ex = some "Experienced" <;> by_cases hD : sp = "Dog" <;>
    cases hy <;> cases hc <;> cases hp <;> by_cases hAge : age < 12 <;>
    simp only [hAge] <;> simp_all

/-- The code's message chain equals the message selection written from the
spec. -/
theorem matchMessage_eq_spec (s : Int) : matchMessage s = spec_message s := rfl

/-- The clamp keeps every integer inside [0, 100]. -/
theorem clampScore_bounds (s : Int) : 0 ≤ clampScore s ∧ clampScore s ≤ 100 := by
  unfold clampScore
  omega

/-- C1: for every animal record (species, activity level, age in months)
and every applicant input (yard, children, other pets, experience level),
the compatibility scorer computes exactly the algorithm of the spec —
start at 100, apply the yard, experience, children and other-pets
adjustments with their reasons in that order, clamp, and select the
message by threshold. -/
theorem score_pet_refines_spec (sp act : String) (age : Int) (hy hc hp : Bool)
    (ex : Option String) :
    score_pet sp act age hy hc hp ex = spec_score sp act age hy hc hp ex := by
  have h := scoreAndReasons_eq_spec sp act age hy hc hp ex
  simp [score_pet, spec_score, h, clampScore, matchMessage_eq_spec]

/-- C2: on a High-activity Dog aged 24 months (the seeded pet Max, id 1)
with no yard, Beginner experience, no children and no other pets, the
endpoint returns percentage 65, the Good-match message, and exactly the
yard and beginner reasons in that order. -/
theorem score_example_beginner_no_yard :
    handle_compatibility_check seedAnimals
        { pet_id := some 1, has_yard := some "no", has_children := some "no",
          has_other_pets := some "no", experience_level := some "Beginner" } =
      .okMatch 65 "Good match! This pet would fit well in your home."
        ["High-energy pets benefit from having a yard",
         "High-energy pets may be challenging for beginners"] ∧
    score_pet "Dog" "High" 24 false false false (some "Beginner") =
      (65, "Good match! This pet would fit well in your home.",
        ["High-energy pets benefit from having a yard",
         "High-energy pets may be challenging for beginners"]) := by
  constructor <;> rfl

/-- C3: for every combination of animal traits and applicant inputs the
compatibility percentage is an integer between 0 and 100. -/
theorem percentage_in_range (sp act : String) (age : Int) (hy hc hp : Bool)
    (ex : Option String) :
    0 ≤ (score_pet sp act age hy hc hp ex).1 ∧ (score_pet sp act age hy hc hp ex).1 ≤ 100 := by
  simp only [score_pet]
  exact clampScore_bounds _

/-- C4: the boolean-like fields of the compatibility endpoint are true
exactly for the literal string "yes"; any other supplied value behaves
like a missing field (false), with no truthy coercion and no error. -/
theorem yes_literal_boundary (animals : List AnimalRow) (data : RequestData)
    (s1 s2 s3 : String) (h1 : s1 ≠ "yes") (h2 : s2 ≠ "yes") (h3 : s3 ≠ "yes") :
    (∀ v : Option String, parseYesNo v = true ↔ v = some "yes") ∧
    handle_compatibility_check animals
        { data with has_yard := some s1, has_children := some s2, has_other_pets := some s3 } =
      handle_compatibility_check animals
        { data with has_yard := none, has_children := none, has_other_pets := none } := by
  have e1 : (s1 == "yes") = false := beq_eq_false_iff_ne.mpr h1
  have e2 : (s2 == "yes") = false := beq_eq_false_iff_ne.mpr h2
  have e3 : (s3 == "yes") = false := beq_eq_false_iff_ne.mpr h3
  constructor
  · intro v
    simp [parseYesNo]
  · simp [handle_compatibility_check, parseYesNo, e1, e2, e3]

/-- Witness for C4 at concrete non-"yes" values "no", "Yes" and "true". -/
theorem yes_literal_boundary_witness :
    (∀ v : Option String, parseYesNo v = true ↔ v = some "yes") ∧
    handle_compatibility_check []
        { has_yard := some "no", has_children := some "Yes", has_other_pets := some "true" } =
      handle_compatibility_check []
        { has_yard := none, has_children := none, has_other_pets := none } :=
  yes_literal_boundary [] {} "no" "Yes" "true" (by decide) (by decide) (by decide)

/-- C5: when the supplied pet id identifies no animal row, the
compatibility check fails with the Pet-not-found message and produces no
score payload. -/
theorem pet_not_found_response (animals : List AnimalRow) (data : RequestData)
    (h : ∀ a ∈ animals, some a.id ≠ data.pet_id) :
    handle_compatibility_check animals data = .failure "Pet not found" := by
  have hf : animals.find? (fun a => some a.id == data.pet_id) = none :=
    List.find?_eq_none.mpr (by intro a ha; simpa using h a ha)
  simp [handle_compatibility_check, getAnimalById, hf]

/-- Witness for C5: id 99 is absent from the seeded animals table. -/
theorem pet_not_found_response_witness :
    (∀ a ∈ seedAnimals, some a.id ≠ (some 99 : Option Nat)) ∧
    handle_compatibility_check seedAnimals { pet_id := some 99 } = .failure "Pet not found" :=
  ⟨by decide, pet_not_found_response seedAnimals { pet_id := some 99 } (by decide)⟩

/-- C10: the accumulated score before clamping always lies in [50, 110],
hence the clamped percentage lies in [50, 100], the lower clamp bound is
never active, and the below-40 message is unreachable. -/
theorem raw_score_bounds_message_unreachable (sp act : String) (age : Int)
    (hy hc hp : Bool) (ex : Option String) :
    50 ≤ (scoreAndReasons sp act age hy hc hp ex).1 ∧
    (scoreAndReasons sp act age hy hc hp ex).1 ≤ 110 ∧
    50 ≤ (score_pet sp act age hy hc hp ex).1 ∧
    (score_pet sp act age hy hc hp ex).1 ≤ 100 ∧
    (score_pet sp act age hy hc hp ex).2.1 ≠
      "This pet may not be the best fit, but adoption is always possible with proper preparation." := by
  have hraw := scoreAndReasons_eq_spec sp act age hy hc hp ex
  have hbounds : 50 ≤ spec_score_raw sp act age hy hc hp ex ∧
      spec_score_raw sp act age hy hc hp ex ≤ 110 := by
    unfold spec_score_raw
    split_ifs <;> omega
  have h1 : (scoreAndReasons sp act age hy hc hp ex).1 = spec_score_raw sp act age hy hc hp ex := by
    rw [hraw]
  have hclamp : 50 ≤ clampScore (scoreAndReasons sp act age hy hc hp ex).1 ∧
      clampScore (scoreAndReasons sp act age hy hc hp ex).1 ≤ 100 := by
    unfold clampScore
    omega
  refine ⟨by omega, by omega, ?_, ?_, ?_⟩
  · simpa [score_pet] using hclamp.1
  · simpa [score_pet] using hclamp.2
  · have h40 : 40 ≤ clampScore (scoreAndReasons sp act age hy hc hp ex).1 := by omega
    simp only [score_pet, matchMessage]
    split_ifs <;> decide

/-- C6 counterexample: a login request carrying a username and a user type
but no password field makes `handle_login` raise `AttributeError`
(`None.encode()`), and the exception escapes `do_POST` to its caller
instead of being converted to a failure response. -/
theorem login_missing_password_escapes :
    do_POST seedDB "2025-01-01 00:00:00" "/api/login"
        (.ok { username := some "admin", user_type := some "admin" }) =
      .error (.attributeError "NoneType object has no attribute encode") := by
  rfl

/-- C6 amended: the router has no try/except of its own — a body that
fails JSON parsing propagates its exception, and a login or register
request without a password raises an `AttributeError` that escapes the
router; the add-pet and adopt handlers catch all their own exceptions, and
the requests and compatibility endpoints never raise, so those four always
answer 200 with a JSON envelope. -/
theorem router_error_propagation_amended (db : DB) (now path : String)
    (data : RequestData) (e : PyError) (hpw : data.password = none) :
    do_POST db now path (.error e) = .error e ∧
    do_POST db now "/api/login" (.ok data) =
      .error (.attributeError "NoneType object has no attribute encode") ∧
    do_POST db now "/api/register" (.ok data) =
      .error (.attributeError "NoneType object has no attribute encode") ∧
    do_POST db now "/api/adopt" (.ok data) =
      .ok ({ status := 200, body := .jsonOf (handle_adopt_pet db.applications data now).1 },
        { db with applications := (handle_adopt_pet db.applications data now).2 }) ∧
    do_POST db now "/api/pets" (.ok data) =
      .ok ({ status := 200, body := .jsonOf (handle_add_pet db.animals data).1 },
        { db with animals := (handle_add_pet db.animals data).2 }) ∧
    do_POST db now "/api/requests" (.ok data) =
      .ok ({ status := 200, body := .jsonOf (handle_get_requests db.applications) }, db) ∧
    do_POST db now "/api/ai/match" (.ok data) =
      .ok ({ status := 200, body := .jsonOf (handle_compatibility_check db.animals data) }, db) := by
  refine ⟨rfl, ?_, ?_, ?_, ?_, ?_, ?_⟩ <;>
    simp [do_POST, handle_login, handle_register, hpw, Bind.bind, Except.bind, Pure.pure, Except.pure]

/-- Witness for C6 amended at a concrete state and password-less body. -/
theorem router_error_propagation_amended_witness :
    ({ username := some "admin", user_type := some "admin" } : RequestData).password = none ∧
    do_POST seedDB "t" "/nope" (.error .jsonDecodeError) = .error .jsonDecodeError :=
  ⟨rfl, (router_error_propagation_amended seedDB "t" "/nope"
    { username := some "admin", user_type := some "admin" } .jsonDecodeError rfl).1⟩

/-- C7 counterexample: a GET on an unknown path is answered with a bare
404 and an empty body, not a 200-level JSON Unknown-endpoint envelope. -/
theorem get_unknown_path_404 :
    do_GET seedDB "/api/unknown" = { status := 404, body := .empty } ∧
    ¬ (200 ≤ (do_GET seedDB "/api/unknown").status ∧ (do_GET seedDB "/api/unknown").status ≤ 299) := by
  constructor
  · rfl
  · decide

/-- C7 amended: a POST to a path outside the six handlers is answered with
status 200 and the JSON body failure "Unknown endpoint"; a GET to a path
other than the document paths and /api/pets is answered 404 with an empty
body. -/
theorem unknown_endpoint_behavior (db : DB) (now path gpath : String) (data : RequestData)
    (hp1 : path ≠ "/api/login") (hp2 : path ≠ "/api/register") (hp3 : path ≠ "/api/pets")
    (hp4 : path ≠ "/api/requests") (hp5 : path ≠ "/api/adopt") (hp6 : path ≠ "/api/ai/match")
    (hg1 : gpath ≠ "/") (hg2 : gpath ≠ "/index.html") (hg3 : gpath ≠ "/api/pets") :
    do_POST db now path (.ok data) =
      .ok ({ status := 200, body := .jsonOf (.failure "Unknown endpoint") }, db) ∧
    do_GET db gpath = { status := 404, body := .empty } := by
  constructor
  · simp [do_POST, hp1, hp2, hp3, hp4, hp5, hp6, Bind.bind, Except.bind, Pure.pure, Except.pure]
  · simp [do_GET, hg1, hg2, hg3]

/-- Witness for C7 amended at the concrete unknown path "/nope". -/
theorem unknown_endpoint_behavior_witness :
    do_POST seedDB "t" "/nope" (.ok {}) =
      .ok ({ status := 200, body := .jsonOf (.failure "Unknown endpoint") }, seedDB) ∧
    do_GET seedDB "/nope" = { status := 404, body := .empty } :=
  unknown_endpoint_behavior seedDB "t" "/nope" "/nope" {}
    (by decide) (by decide) (by decide) (by decide) (by decide) (by decide)
    (by decide) (by decide) (by decide)

/-- C8: registering while some stored user already has the requested
username or email fails with the duplicate message and leaves the users
table unchanged — no second row is created. -/
theorem register_duplicate_unchanged (users : List UserRow) (data : RequestData)
    (un em pw : String) (hu : data.username = some un) (he : data.email = some em)
    (hp : data.password = some pw) (hdup : ∃ u ∈ users, u.username = un ∨ u.email = em) :
    handle_register users data = .ok (.failure "Username or email already exists", users) := by
  have hany : users.any (fun u => u.username == un || u.email == em) = true := by
    rcases hdup with ⟨u, hmem, hcase⟩
    refine List.any_eq_true.mpr ⟨u, hmem, ?_⟩
    rcases hcase with h | h <;> simp [h]
  simp [handle_register, hp, insertUser, hu, he, hany, Bind.bind, Except.bind, Pure.pure, Except.pure]

/-- Witness for C8: re-registering the seeded username "admin". -/
theorem register_duplicate_unchanged_witness :
    (∃ u ∈ seedUsers, u.username = "admin" ∨ u.email = "x@example.com") ∧
    handle_register seedUsers
        { username := some "admin", email := some "x@example.com", password := some "pw" } =
      .ok (.failure "Username or email already exists", seedUsers) :=
  ⟨by decide, register_duplicate_unchanged seedUsers
    { username := some "admin", email := some "x@example.com", password := some "pw" }
    "admin" "x@example.com" "pw" rfl rfl rfl (by decide)⟩

/-- Inserting into the descending insertion sort permutes. -/
theorem insertDescBy_perm (f : ApplicationRow → String) (x : ApplicationRow)
    (l : List ApplicationRow) : List.Perm (insertDescBy f x l) (x :: l) := by
  induction l with
  | nil => simp [insertDescBy]
  | cons y ys ih =>
    simp only [insertDescBy]
    split_ifs
    · exact (ih.cons y).trans (List.Perm.swap x y ys)
    · exact List.Perm.refl _

/-- The descending insertion sort permutes its input. -/
theorem sortDescBy_perm (f : ApplicationRow → String) (l : List ApplicationRow) :
    List.Perm (sortDescBy f l) l := by
  induction l with
  | nil => simp [sortDescBy]
  | cons x xs ih => exact (insertDescBy_perm f x (sortDescBy f xs)).trans (ih.cons x)

/-- Inserting into a descending-sorted list keeps it descending-sorted. -/
theorem pairwise_insertDescBy (f : ApplicationRow → String) (x : ApplicationRow)
    (l : List ApplicationRow) (h : l.Pairwise (fun a b => f b ≤ f a)) :
    (insertDescBy f x l).Pairwise (fun a b => f b ≤ f a) := by
  induction l with
  | nil => simp [insertDescBy]
  | cons y ys ih =>
    rcases List.pairwise_cons.mp h with ⟨hy, hys⟩
    simp only [insertDescBy]
    split_ifs with hxy
    · refine List.pairwise_cons.mpr ⟨?_, ih hys⟩
      intro b hb
      rcases List.mem_cons.mp ((insertDescBy_perm f x ys).mem_iff.mp hb) with rfl | hb2
      · exact hxy
      · exact hy b hb2
    · refine List.pairwise_cons.mpr ⟨?_, h⟩
      intro b hb
      rcases List.mem_cons.mp hb with rfl | hb2
      · exact le_of_lt (lt_of_not_le hxy)
      · exact le_trans (hy b hb2) (le_of_lt (lt_of_not_le hxy))

/-- The descending insertion sort produces a descending-sorted list. -/
theorem pairwise_sortDescBy (f : ApplicationRow → String) (l : List ApplicationRow) :
    (sortDescBy f l).Pairwise (fun a b => f b ≤ f a) := by
  induction l with
  | nil => simp [sortDescBy]
  | cons x xs ih => exact pairwise_insertDescBy f x (sortDescBy f xs) ih

/-- C9: for every record-store state, the requests listing is the
applications table sorted newest-first by submission timestamp, each row
projected to id, adopter name, pet name, submission timestamp and status. -/
theorem requests_sorted_desc (apps : List ApplicationRow) :
    ∃ rs : List RequestView,
      handle_get_requests apps = .okRequests rs ∧
      rs.Pairwise (fun a b => b.applied_at ≤ a.applied_at) ∧
      List.Perm rs (apps.map (fun r =>
        { id := r.id, adopter_name := r.adopter_name, pet_name := r.pet_name,
          applied_at := r.applied_at, status := r.status })) := by
  refine ⟨_, rfl, ?_, ?_⟩
  · exact (pairwise_sortDescBy (·.applied_at) apps).map _ (fun a b hab => hab)
  · exact (sortDescBy_perm (·.applied_at) apps).map _

end PetAdoption
